import Mathlib

/-!
Verification development for the cluster-search subsystem of the
antiSMASH database web API (`api/search/clusters.py`).

The Python module is shallowly embedded: ORM rows become Lean structures,
lazy SQLAlchemy queries become their result sets (`Finset Nat` of cluster
primary keys, since SQL set operations have set semantics over rows keyed
by `bgc_id`), and the three result formatters become pure functions on the
record structures they read.
-/

/-! ## String matching primitives

`ILIKE` without wildcards is case-insensitive equality; `ILIKE '%t%'` is
case-insensitive substring containment; SQL `==` on strings is plain
(case-sensitive) equality. -/

/-- Character-list lowercasing (structural, so the kernel can evaluate it). -/
def lower_string (s : String) : String :=
  String.mk (s.data.map Char.toLower)

/-- Substring test on character lists: `needle` occurs contiguously in `hay`. -/
def str_contains (hay needle : String) : Bool :=
  (List.range (hay.data.length + 1)).any
    (fun i => needle.data.isPrefixOf (hay.data.drop i))

/-- Embedding of `column ILIKE pattern` with a wildcard-free pattern:
case-insensitive string equality. -/
def ilike_eq (column pattern : String) : Bool :=
  lower_string column == lower_string pattern

/-- Embedding of `column ILIKE '%' + t + '%'`: case-insensitive substring
containment of `t` in `column`. -/
def ilike_contains (t column : String) : Bool :=
  str_contains (lower_string column) (lower_string t)

/-! ## Data model

Modelled from the spec: the relational schema (`api.models`) is not part of
the provided source; entity attributes and the cluster → locus → sequence →
genome → taxon chain follow spec section 3, and the association tables follow
the joins written in `clusters.py`. -/

/-- A taxonomy row (`Taxa`). -/
structure Taxa where
  tax_id : Nat
  genus : String
  species : String
  strain : String
  family : String
  taxonomic_order : String
  _class : String
  phylum : String
  superkingdom : String
deriving DecidableEq

/-- A genome row (`Genome`); per the spec, a genome belongs to exactly one taxon. -/
structure Genome where
  tax : Taxa
deriving DecidableEq

/-- A DNA sequence row (`DnaSequence`). -/
structure DnaSequence where
  acc : String
  version : Nat
  dna : String
  genome : Genome
deriving DecidableEq

/-- A locus row (`Locus`): a coordinate span on one sequence. -/
structure Locus where
  start_pos : Nat
  end_pos : Nat
  sequence : DnaSequence
deriving DecidableEq

/-- A BGC type row (`BgcType`): hierarchical via `parent_id`. -/
structure BgcType where
  bgc_type_id : Nat
  term : String
  description : String
  parent_id : Option Nat
deriving DecidableEq

/-- A similarity-search algorithm row. -/
structure Algorithm where
  name : String
deriving DecidableEq

/-- A clusterblast similarity hit, tagged with its algorithm. -/
structure ClusterblastHit where
  algorithm : Algorithm
  similarity : Nat
  description : String
  acc : String
deriving DecidableEq

/-- A biosynthetic gene cluster row (`BiosyntheticGeneCluster`, aliased `Bgc`),
with the ORM relationships the formatters and query builders navigate. -/
structure Bgc where
  bgc_id : Nat
  cluster_number : Nat
  locus : Locus
  bgc_types : List BgcType
  clusterblast_hits : List ClusterblastHit
deriving DecidableEq

/-- A compound row (`Compound`). -/
structure Compound where
  compound_id : Nat
  _class : String
  peptide_sequence : String
deriving DecidableEq

/-- A monomer row (`Monomer`). -/
structure Monomer where
  monomer_id : Nat
  name : String
  description : String
deriving DecidableEq

/-- A profile hit row (`ProfileHit`): links a gene to a profile by name. -/
structure ProfileHit where
  gene_id : Nat
  name : String
deriving DecidableEq

/-- A profile row (`Profile`). -/
structure Profile where
  name : String
deriving DecidableEq

/-- An antiSMASH domain row (`AsDomain`): links a gene to a domain profile. -/
structure AsDomain where
  gene_id : Nat
  as_domain_profile_id : Nat
deriving DecidableEq

/-- An antiSMASH domain profile row (`AsDomainProfile`). -/
structure AsDomainProfile where
  as_domain_profile_id : Nat
  name : String
deriving DecidableEq

/-- The database visible to the search module: the cluster table (with its
relationships preloaded), the global tables probed by the category guesser
and the recursive type query, and the association tables used by the
compound/monomer/profile/domain builders. -/
structure Database where
  clusters : List Bgc
  bgcTypes : List BgcType
  dnaSequences : List DnaSequence
  taxa : List Taxa
  relClustersCompounds : List (Nat × Nat)
  compounds : List Compound
  relCompoundsMonomer : List (Nat × Nat)
  monomers : List Monomer
  geneClusterMap : List (Nat × Nat)
  genes : List Nat
  profileHits : List ProfileHit
  profiles : List Profile
  asDomains : List AsDomain
  asDomainProfiles : List AsDomainProfile

/-! ## Result formatters (`clusters_to_json`, `clusters_to_csv`, `clusters_to_fasta`) -/

/-- One flat record emitted by `clusters_to_json`. -/
structure JsonCluster where
  bgc_id : Nat
  cluster_number : Nat
  start_pos : Nat
  end_pos : Nat
  acc : String
  version : Nat
  genus : String
  species : String
  strain : String
  description : String
  term : String
  similarity : Option Nat
  cbh_description : Option String
  cbh_acc : Option String
deriving DecidableEq

/-- The record `clusters_to_json` builds for one cluster: the hyphen-joined
type term, the single-type/hybrid rendering, and the first
`knownclusterblast` hit if any (`if len(knownclusterblasts) > 0` then
element 0, mirrored by `head?`). -/
def json_cluster_of (cluster : Bgc) : JsonCluster :=
  let term := String.intercalate "-" (cluster.bgc_types.map (fun t => t.term))
  let dt : String × String :=
    match cluster.bgc_types with
    | [t] => (t.description, t.term)
    | _ => ("Hybrid cluster: " ++ term, term ++ " hybrid")
  let knownclusterblasts :=
    cluster.clusterblast_hits.filter (fun hit => hit.algorithm.name == "knownclusterblast")
  { bgc_id := cluster.bgc_id
    cluster_number := cluster.cluster_number
    start_pos := cluster.locus.start_pos
    end_pos := cluster.locus.end_pos
    acc := cluster.locus.sequence.acc
    version := cluster.locus.sequence.version
    genus := cluster.locus.sequence.genome.tax.genus
    species := cluster.locus.sequence.genome.tax.species
    strain := cluster.locus.sequence.genome.tax.strain
    description := dt.1
    term := dt.2
    similarity := knownclusterblasts.head?.map (fun hit => hit.similarity)
    cbh_description := knownclusterblasts.head?.map (fun hit => hit.description)
    cbh_acc := knownclusterblasts.head?.map (fun hit => hit.acc) }

/-- Convert model.BiosyntheticGeneClusters into JSON. -/
def clusters_to_json (clusters : List Bgc) : List JsonCluster :=
  clusters.map json_cluster_of

/-- Python renders an absent (`None`) string field as the text `None` under
`str.format`. -/
def py_format_str : Option String → String
  | none => "None"
  | some s => s

/-- Python renders an absent (`None`) numeric field as the text `None` under
`str.format`, and an `int` by its decimal representation. -/
def py_format_nat : Option Nat → String
  | none => "None"
  | some n => toString n

/-- The literal CSV header line. -/
def csv_header : String :=
  "#Genus\tSpecies\tNCBI accession\tCluster number\tBGC type\tFrom\tTo\tMost similar known cluster\tSimilarity in %\tMIBiG BGC-ID\tResults URL"

/-- One tab-separated CSV data line, built from a structured record. -/
def csv_line (j : JsonCluster) : String :=
  j.genus ++ "\t" ++ j.species ++ "\t" ++ j.acc ++ "." ++ toString j.version ++ "\t" ++
  toString j.cluster_number ++ "\t" ++ j.term ++ "\t" ++ toString j.start_pos ++ "\t" ++
  toString j.end_pos ++ "\t" ++ py_format_str j.cbh_description ++ "\t" ++
  py_format_nat j.similarity ++ "\t" ++ py_format_str j.cbh_acc ++ "\t" ++
  "http://antismash-db.secondarymetabolites.org/output/" ++ j.acc ++
  "/index.html#cluster-" ++ toString j.cluster_number

/-- Convert model.BiosyntheticGeneClusters into CSV. -/
def clusters_to_csv (clusters : List Bgc) : List String :=
  csv_header :: (clusters_to_json clusters).map csv_line

/-- One FASTA record. `break_lines` is the external line-wrapping helper
(`.helpers.break_lines`), not part of the provided source; it is taken as a
parameter. -/
def fasta_record (break_lines : String → String) (c : Bgc) : String :=
  let compiled_type := String.intercalate "-" (c.bgc_types.map (fun t => t.term))
  let seq := break_lines c.locus.sequence.dna
  ">" ++ c.locus.sequence.acc ++ "." ++ toString c.locus.sequence.version ++
  "|Cluster " ++ toString c.cluster_number ++ "|" ++ compiled_type ++ "|" ++
  toString c.locus.start_pos ++ "-" ++ toString c.locus.end_pos ++ "|" ++
  c.locus.sequence.genome.tax.genus ++ " " ++ c.locus.sequence.genome.tax.species ++
  " " ++ c.locus.sequence.genome.tax.strain ++ "\n" ++ seq

/-- Convert model.BiosyntheticGeneCluster into FASTA. -/
def clusters_to_fasta (break_lines : String → String) (clusters : List Bgc) : List String :=
  clusters.map (fasta_record break_lines)

/-! ## The recursive type query (`clusters_by_type`)

The SQLAlchemy recursive CTE computes the least set of `BgcType` rows that
contains the seed (term equality or description containment) and is closed
under adding rows whose `parent_id` points into the set. We embed it as a
fuel-bounded saturation on `Finset Nat` of type ids; `type_ids.card` many
rounds always reach the fixed point. -/

/-- The set of all `bgc_type_id`s in the type table. -/
def type_ids (types : List BgcType) : Finset Nat :=
  (types.map (fun t => t.bgc_type_id)).toFinset

/-- Ids of type rows whose parent id lies in `s` (the CTE's recursive term). -/
def subtype_children (types : List BgcType) (s : Finset Nat) : Finset Nat :=
  ((types.filter (fun t =>
      match t.parent_id with
      | some p => decide (p ∈ s)
      | none => false)).map (fun t => t.bgc_type_id)).toFinset

/-- One round of the recursive CTE: keep `s` and union in the children. -/
def subtype_step (types : List BgcType) (s : Finset Nat) : Finset Nat :=
  s ∪ subtype_children types s

/-- Iterate `subtype_step` until it stabilises or the fuel runs out. -/
def saturate_subtypes (types : List BgcType) : Nat → Finset Nat → Finset Nat
  | 0, s => s
  | fuel + 1, s =>
    let s' := subtype_step types s
    if s' = s then s else saturate_subtypes types fuel s'

/-- The CTE's anchor term: type rows whose `term` equals the search term
(SQL `==`, case-sensitive) or whose `description` contains it
case-insensitively (`ILIKE '%term%'`). -/
def type_seed (db : Database) (t : String) : Finset Nat :=
  ((db.bgcTypes.filter (fun r => r.term == t || ilike_contains t r.description)).map
    (fun r => r.bgc_type_id)).toFinset

/-- `all_subtypes`: the closed set of type ids the recursive CTE produces. -/
def all_subtypes (db : Database) (t : String) : Finset Nat :=
  saturate_subtypes db.bgcTypes (type_ids db.bgcTypes).card (type_seed db t)

/-- Return a query for a bgc by type or type description search:
clusters joined (via `t_rel_clusters_types`) to the closed type set. -/
def clusters_by_type (db : Database) (t : String) : Finset Nat :=
  ((db.clusters.filter (fun c =>
      c.bgc_types.any (fun ty => decide (ty.bgc_type_id ∈ all_subtypes db t)))).map
    (fun c => c.bgc_id)).toFinset

/-- Formalisation of claim C3's words, for comparison with `clusters_by_type`:
identical except that the seeding compares the type term to the search term
case-insensitively, as the spec's blanket case-insensitivity rule states. -/
def type_seed_ci (db : Database) (t : String) : Finset Nat :=
  ((db.bgcTypes.filter (fun r => ilike_eq r.term t || ilike_contains t r.description)).map
    (fun r => r.bgc_type_id)).toFinset

/-- The claim's version of `clusters_by_type`, built on the case-insensitive
seed `type_seed_ci`; used only to compare against the code's behaviour. -/
def clusters_by_type_ci (db : Database) (t : String) : Finset Nat :=
  let closed := saturate_subtypes db.bgcTypes (type_ids db.bgcTypes).card (type_seed_ci db t)
  ((db.clusters.filter (fun c =>
      c.bgc_types.any (fun ty => decide (ty.bgc_type_id ∈ closed)))).map
    (fun c => c.bgc_id)).toFinset

/-! ## The remaining category query builders -/

/-- Clusters whose locus → sequence → genome → taxon chain satisfies `p`
(the `join(Locus).join(DnaSequence).join(Genome).join(Taxa)` chain). -/
def clusters_by_tax (db : Database) (p : Taxa → Bool) : Finset Nat :=
  ((db.clusters.filter (fun c => p c.locus.sequence.genome.tax)).map
    (fun c => c.bgc_id)).toFinset

/-- Return a query for a bgc by strain search. -/
def clusters_by_strain (db : Database) (t : String) : Finset Nat :=
  clusters_by_tax db (fun x => ilike_contains t x.strain)

/-- Return a query for a bgc by species search. -/
def clusters_by_species (db : Database) (t : String) : Finset Nat :=
  clusters_by_tax db (fun x => ilike_contains t x.species)

/-- Return a query for a bgc by genus search. -/
def clusters_by_genus (db : Database) (t : String) : Finset Nat :=
  clusters_by_tax db (fun x => ilike_contains t x.genus)

/-- Return a query for a bgc by family search. -/
def clusters_by_family (db : Database) (t : String) : Finset Nat :=
  clusters_by_tax db (fun x => ilike_contains t x.family)

/-- Return a query for a bgc by order search. -/
def clusters_by_order (db : Database) (t : String) : Finset Nat :=
  clusters_by_tax db (fun x => ilike_contains t x.taxonomic_order)

/-- Return a query for a bgc by class search. -/
def clusters_by_class (db : Database) (t : String) : Finset Nat :=
  clusters_by_tax db (fun x => ilike_contains t x._class)

/-- Return a query for a bgc by phylum search. -/
def clusters_by_phylum (db : Database) (t : String) : Finset Nat :=
  clusters_by_tax db (fun x => ilike_contains t x.phylum)

/-- Return a query for a bgc by superkingdom search. -/
def clusters_by_superkingdom (db : Database) (t : String) : Finset Nat :=
  clusters_by_tax db (fun x => ilike_contains t x.superkingdom)

/-- Return a query for a bgc by monomer or monomer description search. -/
def clusters_by_monomer (db : Database) (t : String) : Finset Nat :=
  ((db.clusters.filter (fun c =>
      db.relClustersCompounds.any (fun rc => rc.1 == c.bgc_id &&
        db.relCompoundsMonomer.any (fun rm => rm.1 == rc.2 &&
          db.monomers.any (fun m => m.monomer_id == rm.2 &&
            (ilike_eq m.name t || ilike_contains t m.description)))))).map
    (fun c => c.bgc_id)).toFinset

/-- Return a query for a bgc by accession number search. -/
def clusters_by_acc (db : Database) (t : String) : Finset Nat :=
  ((db.clusters.filter (fun c => ilike_contains t c.locus.sequence.acc)).map
    (fun c => c.bgc_id)).toFinset

/-- Return a query for a bgc by compound sequence search. -/
def clusters_by_compoundseq (db : Database) (t : String) : Finset Nat :=
  ((db.clusters.filter (fun c =>
      db.relClustersCompounds.any (fun rc => rc.1 == c.bgc_id &&
        db.compounds.any (fun co => co.compound_id == rc.2 &&
          ilike_contains t co.peptide_sequence)))).map
    (fun c => c.bgc_id)).toFinset

/-- Return a query for a bgc by compound class. -/
def clusters_by_compoundclass (db : Database) (t : String) : Finset Nat :=
  ((db.clusters.filter (fun c =>
      db.relClustersCompounds.any (fun rc => rc.1 == c.bgc_id &&
        db.compounds.any (fun co => co.compound_id == rc.2 &&
          ilike_eq co._class t)))).map
    (fun c => c.bgc_id)).toFinset

/-- Return a query for a bgc by profile name. -/
def cluster_by_profile (db : Database) (t : String) : Finset Nat :=
  ((db.clusters.filter (fun c =>
      db.geneClusterMap.any (fun gc => gc.1 == c.bgc_id &&
        db.genes.any (fun g => g == gc.2 &&
          db.profileHits.any (fun ph => ph.gene_id == g &&
            db.profiles.any (fun p => p.name == ph.name &&
              ilike_contains t p.name)))))).map
    (fun c => c.bgc_id)).toFinset

/-- Return a query for a bgc by asdomain name. -/
def cluster_by_asdomain (db : Database) (t : String) : Finset Nat :=
  ((db.clusters.filter (fun c =>
      db.geneClusterMap.any (fun gc => gc.1 == c.bgc_id &&
        db.genes.any (fun g => g == gc.2 &&
          db.asDomains.any (fun a => a.gene_id == g &&
            db.asDomainProfiles.any (fun ap =>
              ap.as_domain_profile_id == a.as_domain_profile_id &&
              ilike_eq ap.name t)))))).map
    (fun c => c.bgc_id)).toFinset

/-! ## Registry and translator -/

/-- Modelled from the spec: the `CLUSTERS` registry is populated by the
`register_handler` decorator (in `.helpers`, outside the provided source),
mapping the category names of spec section 6 to the builders above. -/
def CLUSTERS : String → Option (Database → String → Finset Nat)
  | "type" => some clusters_by_type
  | "strain" => some clusters_by_strain
  | "species" => some clusters_by_species
  | "genus" => some clusters_by_genus
  | "family" => some clusters_by_family
  | "order" => some clusters_by_order
  | "class" => some clusters_by_class
  | "phylum" => some clusters_by_phylum
  | "superkingdom" => some clusters_by_superkingdom
  | "monomer" => some clusters_by_monomer
  | "acc" => some clusters_by_acc
  | "compoundseq" => some clusters_by_compoundseq
  | "compoundclass" => some clusters_by_compoundclass
  | "profile" => some cluster_by_profile
  | "asdomain" => some cluster_by_asdomain
  | _ => none

/-- Guess cluster search category from term: four ordered `ILIKE` equality
probes, else the node's own category. -/
def guess_cluster_category (db : Database) (category t : String) : String :=
  if db.bgcTypes.any (fun ty => ilike_eq ty.term t) then "type"
  else if db.dnaSequences.any (fun s => ilike_eq s.acc t) then "acc"
  else if db.taxa.any (fun x => ilike_eq x.genus t) then "genus"
  else if db.taxa.any (fun x => ilike_eq x.species t) then "species"
  else category

/-- The category an expression node carries after the translator's `unknown`
resolution step. -/
def resolved_category (db : Database) (category t : String) : String :=
  if category = "unknown" then guess_cluster_category db category t else category

/-- A parsed search-expression tree node: an expression (`kind ==
'expression'`), an operation (`kind == 'operation'`), or a node of any other
kind. -/
inductive Term where
  | expression (category : String) (term : String)
  | operation (operation : String) (left : Term) (right : Term)
  | other (kind : String)

/-- Recursively generate an SQL query from the search terms. Queries are
embedded by their result sets, so `except_`/`union`/`intersect` become
`\`/`∪`/`∩` and `Bgc.query.filter(sql.false())` becomes `∅`. -/
def cluster_query_from_term (db : Database) : Term → Finset Nat
  | Term.expression category term =>
    match CLUSTERS (resolved_category db category term) with
    | some handler => handler db term
    | none => ∅
  | Term.operation operation left right =>
    let left_query := cluster_query_from_term db left
    let right_query := cluster_query_from_term db right
    if operation = "except" then left_query \ right_query
    else if operation = "or" then left_query ∪ right_query
    else if operation = "and" then left_query ∩ right_query
    else ∅
  | Term.other _ => ∅

/-! ## Concrete fixtures -/

/-- A database with every table empty. -/
def empty_db : Database :=
  ⟨[], [], [], [], [], [], [], [], [], [], [], [], [], []⟩

/-- Fixture BGC type: a root type. -/
def nrps_type : BgcType := ⟨1, "NRPS", "Nonribosomal peptide", none⟩

/-- Fixture BGC type: a child of `nrps_type` in the hierarchy. -/
def nrps_sub_type : BgcType := ⟨2, "NRPS-sub", "Sub-branch of type one", some 1⟩

/-- Fixture BGC type: a second root type. -/
def pks_type : BgcType := ⟨3, "PKS", "Polyketide", none⟩

/-- Fixture taxonomy row. -/
def sample_tax : Taxa :=
  ⟨5, "Streptomyces", "coelicolor", "A3(2)", "Streptomycetaceae", "Streptomycetales",
   "Actinomycetia", "Actinomycetota", "Bacteria"⟩

/-- Fixture DNA sequence row. -/
def sample_sequence : DnaSequence := ⟨"NC_003888", 3, "ACGTACGTACGT", ⟨sample_tax⟩⟩

/-- Fixture locus row. -/
def sample_locus : Locus := ⟨100, 200, sample_sequence⟩

/-- Fixture cluster carrying the root type. -/
def cluster_ten : Bgc := ⟨10, 1, sample_locus, [nrps_type], []⟩

/-- Fixture cluster carrying the child type. -/
def cluster_eleven : Bgc := ⟨11, 2, sample_locus, [nrps_sub_type], []⟩

/-- Fixture database for the `type` category: two clusters above a two-level
type hierarchy. -/
def type_db : Database :=
  { empty_db with
    clusters := [cluster_ten, cluster_eleven]
    bgcTypes := [nrps_type, nrps_sub_type] }

/-- Fixture BGC type whose term collides with a taxon genus. -/
def lanthi_type : BgcType := ⟨4, "Lanthipeptide", "Lanthipeptide cluster", none⟩

/-- Fixture taxon whose genus collides with a BGC type term. -/
def lanthi_tax : Taxa :=
  ⟨6, "Lanthipeptide", "ambigua", "DSM-1", "Oddaceae", "Oddales", "Oddia", "Oddiota", "Bacteria"⟩

/-- Fixture database where the term `Lanthipeptide` matches both a type term
and a genus. -/
def guess_db : Database :=
  { empty_db with
    bgcTypes := [lanthi_type]
    taxa := [lanthi_tax] }

/-- Fixture `knownclusterblast` hit, first in list order. -/
def kcb_hit_one : ClusterblastHit := ⟨⟨"knownclusterblast"⟩, 85, "balhimycin", "BGC0000455"⟩

/-- Fixture `knownclusterblast` hit, second in list order. -/
def kcb_hit_two : ClusterblastHit := ⟨⟨"knownclusterblast"⟩, 40, "vancomycin", "BGC0000456"⟩

/-- Fixture hit from a different algorithm. -/
def other_hit : ClusterblastHit := ⟨⟨"clusterblast"⟩, 99, "unrelated", "XY_000001"⟩

/-- Fixture cluster with two types and three similarity hits. -/
def hybrid_cluster : Bgc :=
  ⟨12, 3, sample_locus, [nrps_type, pks_type], [other_hit, kcb_hit_one, kcb_hit_two]⟩

/-- Fixture cluster with exactly one type and no similarity hits. -/
def single_cluster : Bgc := ⟨13, 4, sample_locus, [nrps_type], []⟩

/-- Fixture cluster with an empty type list. -/
def untyped_cluster : Bgc := ⟨14, 5, sample_locus, [], []⟩

/-! ## Properties of the type-hierarchy saturation -/

/-- The saturation only ever grows its argument. -/
theorem saturate_subtypes_subset (types : List BgcType) :
    ∀ fuel s, s ⊆ saturate_subtypes types fuel s := by
  intro fuel
  induction fuel with
  | zero => intro s; exact Finset.Subset.refl _
  | succ n ih =>
    intro s
    by_cases hfix : subtype_step types s = s
    · simp [saturate_subtypes, hfix]
    · have heq : saturate_subtypes types (n + 1) s =
          saturate_subtypes types n (subtype_step types s) := by
        simp [saturate_subtypes, hfix]
      rw [heq]
      exact subset_trans Finset.subset_union_left (ih _)

/-- Every child id produced by one round comes from the type table. -/
theorem subtype_children_subset_type_ids (types : List BgcType) (s : Finset Nat) :
    subtype_children types s ⊆ type_ids types := by
  intro x hx
  simp only [subtype_children, List.mem_toFinset, List.mem_map, List.mem_filter] at hx
  simp only [type_ids, List.mem_toFinset, List.mem_map]
  obtain ⟨r, ⟨hr, _⟩, hid⟩ := hx
  exact ⟨r, hr, hid⟩

/-- One round is monotone in the current set. -/
theorem subtype_children_mono (types : List BgcType) {s T : Finset Nat} (h : s ⊆ T) :
    subtype_children types s ⊆ subtype_children types T := by
  intro x hx
  simp only [subtype_children, List.mem_toFinset, List.mem_map, List.mem_filter] at hx ⊢
  obtain ⟨r, ⟨hr, hp⟩, hid⟩ := hx
  refine ⟨r, ⟨hr, ?_⟩, hid⟩
  cases hpid : r.parent_id with
  | none => rw [hpid] at hp; simp at hp
  | some p =>
    rw [hpid] at hp
    simp only [decide_eq_true_eq] at hp ⊢
    exact h hp

/-- With enough fuel the saturation reaches a fixed point of `subtype_step`. -/
theorem saturate_subtypes_fixed (types : List BgcType) :
    ∀ fuel s, (type_ids types \ s).card ≤ fuel →
      subtype_step types (saturate_subtypes types fuel s) = saturate_subtypes types fuel s := by
  intro fuel
  induction fuel with
  | zero =>
    intro s hs
    have h0 : type_ids types \ s = ∅ := Finset.card_eq_zero.mp (Nat.le_zero.mp hs)
    have hsub : type_ids types ⊆ s := by
      intro x hx
      by_contra hxs
      have hmem : x ∈ type_ids types \ s := Finset.mem_sdiff.mpr ⟨hx, hxs⟩
      rw [h0] at hmem
      exact absurd hmem (Finset.not_mem_empty x)
    have hchild : subtype_children types s ⊆ s :=
      subset_trans (subtype_children_subset_type_ids types s) hsub
    show subtype_step types s = s
    simp [subtype_step, Finset.union_eq_left.mpr hchild]
  | succ n ih =>
    intro s hs
    by_cases hfix : subtype_step types s = s
    · simp [saturate_subtypes, hfix]
    · have heq : saturate_subtypes types (n + 1) s =
          saturate_subtypes types n (subtype_step types s) := by
        simp [saturate_subtypes, hfix]
      rw [heq]
      apply ih
      have hsub : s ⊆ subtype_step types s := Finset.subset_union_left
      have hx : ∃ x, x ∈ subtype_step types s ∧ x ∉ s := by
        by_contra hno
        push_neg at hno
        exact hfix (Finset.Subset.antisymm (fun x hx => hno x hx) hsub)
      obtain ⟨x, hxs', hxs⟩ := hx
      have hxt : x ∈ type_ids types := by
        rcases Finset.mem_union.mp hxs' with h | h
        · exact absurd h hxs
        · exact subtype_children_subset_type_ids types s h
      have hss : type_ids types \ subtype_step types s ⊂ type_ids types \ s := by
        rw [Finset.ssubset_iff_subset_ne]
        constructor
        · exact Finset.sdiff_subset_sdiff (Finset.Subset.refl _) hsub
        · intro hcon
          have hmem : x ∈ type_ids types \ s := Finset.mem_sdiff.mpr ⟨hxt, hxs⟩
          rw [← hcon] at hmem
          exact (Finset.mem_sdiff.mp hmem).2 hxs'
      have := Finset.card_lt_card hss
      omega

/-- The saturation stays inside any set that contains the seed and is closed
under adding children. -/
theorem saturate_subtypes_least (types : List BgcType) :
    ∀ fuel s (T : Finset Nat), s ⊆ T → subtype_children types T ⊆ T →
      saturate_subtypes types fuel s ⊆ T := by
  intro fuel
  induction fuel with
  | zero => intro s T hs _; exact hs
  | succ n ih =>
    intro s T hs hT
    by_cases hfix : subtype_step types s = s
    · simpa [saturate_subtypes, hfix] using hs
    · have heq : saturate_subtypes types (n + 1) s =
          saturate_subtypes types n (subtype_step types s) := by
        simp [saturate_subtypes, hfix]
      rw [heq]
      exact ih _ T (Finset.union_subset hs (subset_trans (subtype_children_mono types hs) hT)) hT

/-! ## Claim theorems -/

/-- C1: for every operation node, `cluster_query_from_term` recurses into both
children and combines their translated queries by the named set operation:
`and` yields the intersection of the children's result sets, `or` their
union, and `except` the left child's result set minus the right child's,
literally on the tree with no algebraic rewriting. -/
theorem cluster_query_operation_combines (db : Database) (l r : Term) :
    cluster_query_from_term db (Term.operation "and" l r) =
      cluster_query_from_term db l ∩ cluster_query_from_term db r ∧
    cluster_query_from_term db (Term.operation "or" l r) =
      cluster_query_from_term db l ∪ cluster_query_from_term db r ∧
    cluster_query_from_term db (Term.operation "except" l r) =
      cluster_query_from_term db l \ cluster_query_from_term db r :=
  ⟨rfl, rfl, rfl⟩

/-- C2: `cluster_query_from_term` is total and degrades silently: an
expression node whose (possibly guesser-resolved) category is not registered,
an operation node whose operation is none of `and`, `or`, `except`, and a
node of any other kind all translate to the empty (zero-row) query. -/
theorem cluster_query_silent_fallback (db : Database) :
    (∀ category term, CLUSTERS (resolved_category db category term) = none →
      cluster_query_from_term db (Term.expression category term) = ∅) ∧
    (∀ op l r, op ≠ "and" → op ≠ "or" → op ≠ "except" →
      cluster_query_from_term db (Term.operation op l r) = ∅) ∧
    (∀ kind, cluster_query_from_term db (Term.other kind) = ∅) := by
  refine ⟨?_, ?_, ?_⟩
  · intro category term h
    simp [cluster_query_from_term, h]
  · intro op l r h1 h2 h3
    simp [cluster_query_from_term, h1, h2, h3]
  · intro kind
    rfl

/-- Witness for C2: concrete fallback inputs — an unregistered category, an
unrecognized operation, and a node of a foreign kind. -/
theorem cluster_query_silent_fallback_witness :
    cluster_query_from_term empty_db (Term.expression "bogus-category" "tetracycline") = ∅ ∧
    cluster_query_from_term empty_db
      (Term.operation "xor" (Term.expression "genus" "a") (Term.expression "genus" "b")) = ∅ ∧
    cluster_query_from_term empty_db (Term.other "comment") = ∅ :=
  ⟨(cluster_query_silent_fallback empty_db).1 "bogus-category" "tetracycline" rfl,
   (cluster_query_silent_fallback empty_db).2.1 "xor" _ _ (by decide) (by decide) (by decide),
   (cluster_query_silent_fallback empty_db).2.2 "comment"⟩

/-- C4: `guess_cluster_category` probes in the fixed order type, accession,
genus, species; the first probe matching any row (case-insensitive equality)
names the category, and if no probe matches the node's own category is
returned unchanged. -/
theorem guess_cluster_category_probe_order (db : Database) (category t : String) :
    (db.bgcTypes.any (fun ty => ilike_eq ty.term t) = true →
      guess_cluster_category db category t = "type") ∧
    (db.bgcTypes.any (fun ty => ilike_eq ty.term t) = false →
      db.dnaSequences.any (fun s => ilike_eq s.acc t) = true →
      guess_cluster_category db category t = "acc") ∧
    (db.bgcTypes.any (fun ty => ilike_eq ty.term t) = false →
      db.dnaSequences.any (fun s => ilike_eq s.acc t) = false →
      db.taxa.any (fun x => ilike_eq x.genus t) = true →
      guess_cluster_category db category t = "genus") ∧
    (db.bgcTypes.any (fun ty => ilike_eq ty.term t) = false →
      db.dnaSequences.any (fun s => ilike_eq s.acc t) = false →
      db.taxa.any (fun x => ilike_eq x.genus t) = false →
      db.taxa.any (fun x => ilike_eq x.species t) = true →
      guess_cluster_category db category t = "species") ∧
    (db.bgcTypes.any (fun ty => ilike_eq ty.term t) = false →
      db.dnaSequences.any (fun s => ilike_eq s.acc t) = false →
      db.taxa.any (fun x => ilike_eq x.genus t) = false →
      db.taxa.any (fun x => ilike_eq x.species t) = false →
      guess_cluster_category db category t = category) := by
  refine ⟨?_, ?_, ?_, ?_, ?_⟩
  · intro h1
    unfold guess_cluster_category
    rw [h1]
    simp
  · intro h1 h2
    unfold guess_cluster_category
    rw [h1, h2]
    simp
  · intro h1 h2 h3
    unfold guess_cluster_category
    rw [h1, h2, h3]
    simp
  · intro h1 h2 h3 h4
    unfold guess_cluster_category
    rw [h1, h2, h3, h4]
    simp
  · intro h1 h2 h3 h4
    unfold guess_cluster_category
    rw [h1, h2, h3, h4]
    simp

/-- Witness for C4: `Lanthipeptide` matches both a BGC type term and a taxon
genus in `guess_db`, and the guesser resolves it to `type`. -/
theorem guess_cluster_category_probe_order_witness :
    guess_db.taxa.any (fun x => ilike_eq x.genus "lanthipeptide") = true ∧
    guess_cluster_category guess_db "unknown" "lanthipeptide" = "type" :=
  ⟨by decide,
   (guess_cluster_category_probe_order guess_db "unknown" "lanthipeptide").1 (by decide)⟩

/-- Counterexample to C3 as stated: the claim reads the term comparison as
case-insensitive, but the code seeds with SQL `==` on the term. On `type_db`,
searching `nrps` finds nothing, while the claim's case-insensitive seeding
(`clusters_by_type_ci`) would return both clusters. -/
theorem clusters_by_type_case_counterexample :
    clusters_by_type type_db "nrps" = ∅ ∧
    clusters_by_type_ci type_db "nrps" = ({10, 11} : Finset Nat) ∧
    clusters_by_type type_db "nrps" ≠ clusters_by_type_ci type_db "nrps" :=
  ⟨by decide, by decide, by decide⟩

/-- C3 (amended): `clusters_by_type` seeds with type rows whose term equals
the search term case-sensitively or whose description contains it
case-insensitively, closes the seed under repeatedly adding every type row
whose parent reference points into the set (`all_subtypes` contains the seed,
is a fixed point of `subtype_step`, and is least among child-closed supersets
of the seed), and returns the clusters joined to the closed set. -/
theorem clusters_by_type_closure (db : Database) (t : String) :
    (∀ x, x ∈ type_seed db t ↔ ∃ r ∈ db.bgcTypes, r.bgc_type_id = x ∧
      (r.term = t ∨ ilike_contains t r.description = true)) ∧
    (∀ b, b ∈ clusters_by_type db t ↔ ∃ c ∈ db.clusters, c.bgc_id = b ∧
      ∃ ty ∈ c.bgc_types, ty.bgc_type_id ∈ all_subtypes db t) ∧
    type_seed db t ⊆ all_subtypes db t ∧
    subtype_step db.bgcTypes (all_subtypes db t) = all_subtypes db t ∧
    (∀ T : Finset Nat, type_seed db t ⊆ T → subtype_children db.bgcTypes T ⊆ T →
      all_subtypes db t ⊆ T) := by
  refine ⟨?_, ?_, ?_, ?_, ?_⟩
  · intro x
    simp only [type_seed, List.mem_toFinset, List.mem_map, List.mem_filter,
      Bool.or_eq_true, beq_iff_eq]
    constructor
    · rintro ⟨r, ⟨hr, hcond⟩, hid⟩
      exact ⟨r, hr, hid, hcond⟩
    · rintro ⟨r, hr, hid, hcond⟩
      exact ⟨r, ⟨hr, hcond⟩, hid⟩
  · intro b
    simp only [clusters_by_type, List.mem_toFinset, List.mem_map, List.mem_filter,
      List.any_eq_true, decide_eq_true_eq]
    constructor
    · rintro ⟨c, ⟨hc, ty, hty, hmem⟩, hid⟩
      exact ⟨c, hc, hid, ty, hty, hmem⟩
    · rintro ⟨c, hc, hid, ty, hty, hmem⟩
      exact ⟨c, ⟨hc, ty, hty, hmem⟩, hid⟩
  · exact saturate_subtypes_subset db.bgcTypes _ _
  · exact saturate_subtypes_fixed db.bgcTypes _ _
      (Finset.card_le_card (Finset.sdiff_subset))
  · intro T hseed hclosed
    exact saturate_subtypes_least db.bgcTypes _ _ T hseed hclosed

/-- Witness for C3 (amended): on `type_db` with the exact-case term `NRPS`,
the closed set stays within the child-closed superset of the seed, and
cluster 10 is returned. -/
theorem clusters_by_type_closure_witness :
    all_subtypes type_db "NRPS" ⊆ ({1, 2} : Finset Nat) ∧
    (10 : Nat) ∈ clusters_by_type type_db "NRPS" :=
  ⟨(clusters_by_type_closure type_db "NRPS").2.2.2.2 {1, 2} (by decide) (by decide),
   ((clusters_by_type_closure type_db "NRPS").2.1 10).mpr
     ⟨cluster_ten, by decide, rfl, nrps_type, by decide, by decide⟩⟩

/-- C5: `clusters_to_json` maps each cluster to its record; a cluster with
more than one BGC type is rendered as a hybrid (description
`Hybrid cluster: ` plus the hyphen-joined terms, term the hyphen-joined
terms plus ` hybrid`), while a cluster with exactly one type takes that
type's stored description and term verbatim. -/
theorem clusters_to_json_type_rendering :
    (∀ clusters, clusters_to_json clusters = clusters.map json_cluster_of) ∧
    (∀ c : Bgc, 1 < c.bgc_types.length →
      (json_cluster_of c).description =
        "Hybrid cluster: " ++ String.intercalate "-" (c.bgc_types.map (fun t => t.term)) ∧
      (json_cluster_of c).term =
        String.intercalate "-" (c.bgc_types.map (fun t => t.term)) ++ " hybrid") ∧
    (∀ (c : Bgc) (t : BgcType), c.bgc_types = [t] →
      (json_cluster_of c).description = t.description ∧
      (json_cluster_of c).term = t.term) := by
  refine ⟨fun clusters => rfl, ?_, ?_⟩
  · intro c h
    rcases hb : c.bgc_types with _ | ⟨a, _ | ⟨b, tl⟩⟩
    · rw [hb] at h; simp at h
    · rw [hb] at h; simp at h
    · constructor <;> simp [json_cluster_of, hb]
  · intro c t hb
    constructor <;> simp [json_cluster_of, hb]

/-- Witness for C5: the two-type fixture renders as a hybrid and the
single-type fixture reproduces its type's fields verbatim. -/
theorem clusters_to_json_type_rendering_witness :
    ((json_cluster_of hybrid_cluster).description =
        "Hybrid cluster: " ++
          String.intercalate "-" (hybrid_cluster.bgc_types.map (fun t => t.term)) ∧
      (json_cluster_of hybrid_cluster).term =
        String.intercalate "-" (hybrid_cluster.bgc_types.map (fun t => t.term)) ++ " hybrid") ∧
    ((json_cluster_of single_cluster).description = nrps_type.description ∧
      (json_cluster_of single_cluster).term = nrps_type.term) :=
  ⟨clusters_to_json_type_rendering.2.1 hybrid_cluster (by decide),
   clusters_to_json_type_rendering.2.2 single_cluster nrps_type rfl⟩

/-- C6: the similarity fields default to absent, and when the cluster has at
least one `knownclusterblast` hit they are populated from exactly the first
such hit in list order, ignoring later hits and other algorithms. -/
theorem clusters_to_json_first_knownclusterblast (c : Bgc) :
    (c.clusterblast_hits.filter (fun hit => hit.algorithm.name == "knownclusterblast") = [] →
      (json_cluster_of c).similarity = none ∧
      (json_cluster_of c).cbh_description = none ∧
      (json_cluster_of c).cbh_acc = none) ∧
    (∀ (h : ClusterblastHit) (rest : List ClusterblastHit),
      c.clusterblast_hits.filter (fun hit => hit.algorithm.name == "knownclusterblast") =
        h :: rest →
      (json_cluster_of c).similarity = some h.similarity ∧
      (json_cluster_of c).cbh_description = some h.description ∧
      (json_cluster_of c).cbh_acc = some h.acc) := by
  constructor
  · intro hf
    refine ⟨?_, ?_, ?_⟩ <;> simp [json_cluster_of, hf]
  · intro h rest hf
    refine ⟨?_, ?_, ?_⟩ <;> simp [json_cluster_of, hf]

/-- Witness for C6: the fixture without hits leaves the fields absent; the
fixture whose hit list is a foreign-algorithm hit followed by two
`knownclusterblast` hits surfaces only the first of the two. -/
theorem clusters_to_json_first_knownclusterblast_witness :
    ((json_cluster_of single_cluster).similarity = none ∧
      (json_cluster_of single_cluster).cbh_description = none ∧
      (json_cluster_of single_cluster).cbh_acc = none) ∧
    ((json_cluster_of hybrid_cluster).similarity = some kcb_hit_one.similarity ∧
      (json_cluster_of hybrid_cluster).cbh_description = some kcb_hit_one.description ∧
      (json_cluster_of hybrid_cluster).cbh_acc = some kcb_hit_one.acc) :=
  ⟨(clusters_to_json_first_knownclusterblast single_cluster).1 rfl,
   (clusters_to_json_first_knownclusterblast hybrid_cluster).2 kcb_hit_one [kcb_hit_two]
     (by decide)⟩

/-- C7: `clusters_to_csv` is the exact literal header line followed by one
tab-separated line per cluster, in input order, built from the structured
records with columns genus, species, accession.version, cluster number,
combined type term, start, end, similar-cluster description, similarity,
similar-cluster accession, and the fixed URL template instantiated with the
row's accession and cluster number. -/
theorem clusters_to_csv_format (clusters : List Bgc) :
    clusters_to_csv clusters =
      "#Genus\tSpecies\tNCBI accession\tCluster number\tBGC type\tFrom\tTo\tMost similar known cluster\tSimilarity in %\tMIBiG BGC-ID\tResults URL" ::
      (clusters_to_json clusters).map (fun j =>
        j.genus ++ "\t" ++ j.species ++ "\t" ++ j.acc ++ "." ++ toString j.version ++ "\t" ++
        toString j.cluster_number ++ "\t" ++ j.term ++ "\t" ++ toString j.start_pos ++ "\t" ++
        toString j.end_pos ++ "\t" ++ py_format_str j.cbh_description ++ "\t" ++
        py_format_nat j.similarity ++ "\t" ++ py_format_str j.cbh_acc ++ "\t" ++
        "http://antismash-db.secondarymetabolites.org/output/" ++ j.acc ++
        "/index.html#cluster-" ++ toString j.cluster_number) := rfl

/-- C8: `clusters_to_fasta` emits one record per cluster whose header
instantiates the fixed template with the cluster's own values (type being the
hyphen-joined type terms) and whose body is the locus DNA sequence wrapped by
the external line-wrapping utility, here an arbitrary parameter. -/
theorem clusters_to_fasta_format (break_lines : String → String) (clusters : List Bgc) :
    clusters_to_fasta break_lines clusters =
      clusters.map (fun c =>
        ">" ++ c.locus.sequence.acc ++ "." ++ toString c.locus.sequence.version ++
        "|Cluster " ++ toString c.cluster_number ++ "|" ++
        String.intercalate "-" (c.bgc_types.map (fun t => t.term)) ++ "|" ++
        toString c.locus.start_pos ++ "-" ++ toString c.locus.end_pos ++ "|" ++
        c.locus.sequence.genome.tax.genus ++ " " ++ c.locus.sequence.genome.tax.species ++
        " " ++ c.locus.sequence.genome.tax.strain ++ "\n" ++
        break_lines c.locus.sequence.dna) := rfl

/-- C9: the three formatters are deterministic pure functions of the input
record list: equal inputs produce equal outputs (the embedding is by pure
functions, so the inputs themselves are untouched). -/
theorem formatters_deterministic (break_lines : String → String) (cs cs' : List Bgc)
    (h : cs = cs') :
    clusters_to_json cs = clusters_to_json cs' ∧
    clusters_to_csv cs = clusters_to_csv cs' ∧
    clusters_to_fasta break_lines cs = clusters_to_fasta break_lines cs' := by
  subst h
  exact ⟨rfl, rfl, rfl⟩

/-- Witness for C9: determinism at a concrete cluster list. -/
theorem formatters_deterministic_witness :
    clusters_to_json [hybrid_cluster] = clusters_to_json [hybrid_cluster] ∧
    clusters_to_csv [hybrid_cluster] = clusters_to_csv [hybrid_cluster] ∧
    clusters_to_fasta (fun s => s) [hybrid_cluster] =
      clusters_to_fasta (fun s => s) [hybrid_cluster] :=
  formatters_deterministic (fun s => s) [hybrid_cluster] [hybrid_cluster] rfl

/-- C10: a cluster whose type list is empty takes the multi-type branch with
an empty joined term, so its record reads description `Hybrid cluster: ` and
term ` hybrid` (leading space), with no error and no separate rendering. -/
theorem clusters_to_json_empty_types (c : Bgc) (h : c.bgc_types = []) :
    clusters_to_json [c] = [json_cluster_of c] ∧
    (json_cluster_of c).description = "Hybrid cluster: " ∧
    (json_cluster_of c).term = " hybrid" := by
  refine ⟨rfl, ?_, ?_⟩ <;> simp [json_cluster_of, h] <;> rfl

/-- Witness for C10: the typeless fixture cluster. -/
theorem clusters_to_json_empty_types_witness :
    clusters_to_json [untyped_cluster] = [json_cluster_of untyped_cluster] ∧
    (json_cluster_of untyped_cluster).description = "Hybrid cluster: " ∧
    (json_cluster_of untyped_cluster).term = " hybrid" :=
  clusters_to_json_empty_types untyped_cluster rfl

